import Mathlib

/-!
Verification of the kindle-sender service (src/server/app.py) against its
natural-language specification.

The Python code is shallowly embedded: external effects (network fetch,
e-book library calls, the mail relay, the filesystem) are modelled by
explicit outcome parameters, and the handlers become pure Lean functions
over those outcomes plus the in-memory queue state.
-/

namespace KindleSender

/-- Python string truthiness for an optional environment value:
`os.getenv` yields `None` when unset, and an empty string is falsy. -/
def truthy : Option String → Bool
  | none => false
  | some s => !(s = "")

/-- The module-level configuration read from the environment
(SMTP_USERNAME, SMTP_PASSWORD, KINDLE_EMAIL, FROM_EMAIL). -/
structure Config where
  smtp_username : Option String
  smtp_password : Option String
  kindle_email : Option String
  from_email : Option String
deriving DecidableEq

/-- The guard `all([SMTP_USERNAME, SMTP_PASSWORD, KINDLE_EMAIL])` at the top
of `send_to_kindle` (app.py line 138). -/
def configOk (cfg : Config) : Bool :=
  truthy cfg.smtp_username && truthy cfg.smtp_password && truthy cfg.kindle_email

/-- The literal error message returned when configuration is incomplete
(app.py line 141). -/
def configErrorMsg : String :=
  "Email configuration incomplete. Please set SMTP_USERNAME, SMTP_PASSWORD, and KINDLE_EMAIL in .env"

/-- Result dictionary of `send_to_kindle`: success flag plus the error or
message string that the corresponding branch puts in the dictionary. -/
structure SendResult where
  success : Bool
  error : Option String
  message : Option String
deriving DecidableEq

/-- Outcome of the body of the `try` block of `send_to_kindle`: either the
email is sent, or some step (file read, connect, starttls, login, send)
raises an exception whose text is `msg`. -/
inductive SendNet where
  | ok
  | exn (msg : String)
deriving DecidableEq

/-- Embedding of `send_to_kindle(epub_path, title)` (app.py lines 136-178).

Inputs beyond the code's own arguments: the module configuration, the
outcome of the `try` block, and whether the file at `epub_path` exists
before the call. Output: the returned result dictionary, whether the file
exists after the call returns, and whether the function entered the `try`
block (i.e. attempted any file or relay activity).

The config guard returns before the `try`/`finally`, so on that path the
file is untouched; the `finally` clause removes the file on every path
through the `try` block. -/
def send_to_kindle (cfg : Config) (net : SendNet) (title : String)
    (fileExists : Bool) : SendResult × Bool × Bool :=
  if configOk cfg = false then
    ({ success := false, error := some configErrorMsg, message := none }, fileExists, false)
  else
    match net with
    | SendNet.ok =>
        ({ success := true, error := none,
           message := some ("Sent \"" ++ title ++ "\" to Kindle") }, false, true)
    | SendNet.exn m =>
        ({ success := false, error := some m, message := none }, false, true)

/-- C1 (counterexample): with an incomplete configuration and an existing
packaged file, `send_to_kindle` reports a (configuration) failure outcome
yet the file still exists after the call, contradicting the claim that the
file no longer exists after any outcome. -/
theorem send_to_kindle_config_leaves_file :
    (send_to_kindle ⟨none, none, none, none⟩ SendNet.ok "T" true).1.success = false
    ∧ (send_to_kindle ⟨none, none, none, none⟩ SendNet.ok "T" true).2.1 = true := by
  constructor <;> rfl

/-- C1 (amended): after `send_to_kindle` returns, the packaged file exists
iff the call failed the configuration guard (which returns before the
`try`/`finally`); on every send-success and send-failure path the
`finally` clause has removed the file. -/
theorem send_to_kindle_file_cleanup (cfg : Config) (net : SendNet)
    (title : String) (fe : Bool) :
    (send_to_kindle cfg net title fe).2.1 = (if configOk cfg then false else fe) := by
  unfold send_to_kindle
  cases h : configOk cfg <;> cases net <;> simp [h]

/-- C5: if any of the relay username, relay password or destination address
is unconfigured, `send_to_kindle` returns the configuration-error result,
leaves the file as it was, and never enters the `try` block, hence performs
no file or network side effect. -/
theorem send_to_kindle_config_guard (cfg : Config) (net : SendNet)
    (title : String) (fe : Bool)
    (h : truthy cfg.smtp_username = false ∨ truthy cfg.smtp_password = false
      ∨ truthy cfg.kindle_email = false) :
    (send_to_kindle cfg net title fe).1
        = { success := false, error := some configErrorMsg, message := none }
    ∧ (send_to_kindle cfg net title fe).2.1 = fe
    ∧ (send_to_kindle cfg net title fe).2.2 = false := by
  have hc : configOk cfg = false := by
    unfold configOk
    rcases h with h | h | h <;> simp [h]
  unfold send_to_kindle
  simp [hc]

/-- C5 witness: a concrete unconfigured call. -/
theorem send_to_kindle_config_guard_witness :
    (send_to_kindle ⟨some "u", none, some "k", none⟩ SendNet.ok "T" true).1
        = { success := false, error := some configErrorMsg, message := none }
    ∧ (send_to_kindle ⟨some "u", none, some "k", none⟩ SendNet.ok "T" true).2.1 = true
    ∧ (send_to_kindle ⟨some "u", none, some "k", none⟩ SendNet.ok "T" true).2.2 = false :=
  send_to_kindle_config_guard ⟨some "u", none, some "k", none⟩ SendNet.ok "T" true
    (Or.inr (Or.inl rfl))

/-- What the newspaper library does for one `download()`/`parse()` call:
either it yields the parsed fields (title may be missing or empty), or some
step raises an exception whose text is `msg`. -/
inductive ExtractOutcome where
  | parsed (title : Option String) (authors : List String)
      (publish_date : Option String) (text html top_image : String)
  | exn (msg : String)
deriving DecidableEq

/-- Whether the library call succeeds. -/
def ExtractOutcome.isOk : ExtractOutcome → Bool
  | ExtractOutcome.parsed _ _ _ _ _ _ => true
  | ExtractOutcome.exn _ => false

/-- The success-shaped article dictionary built by `extract_article`
(app.py lines 51-60). -/
structure ArticleOk where
  title : String
  authors : List String
  publish_date : Option String
  text : String
  html : String
  top_image : String
  url : String
deriving DecidableEq

/-- Return value of `extract_article`: the success dictionary, or the
failure dictionary holding `error` and `url`. -/
inductive ExtractResult where
  | ok (a : ArticleOk)
  | fail (error : String) (url : String)
deriving DecidableEq

/-- The `success` field of the returned dictionary. -/
def ExtractResult.success : ExtractResult → Bool
  | ExtractResult.ok _ => true
  | ExtractResult.fail _ _ => false

/-- The `url` field of the returned dictionary. -/
def ExtractResult.urlOf : ExtractResult → String
  | ExtractResult.ok a => a.url
  | ExtractResult.fail _ u => u

/-- The `error` field of the returned dictionary (absent on success). -/
def ExtractResult.errorOf : ExtractResult → Option String
  | ExtractResult.ok _ => none
  | ExtractResult.fail e _ => some e

/-- Embedding of `extract_article(url)` (app.py lines 44-66). The whole body
is wrapped in `try/except Exception`, so the function is total: an
exception becomes the failure dictionary with `str(e)` and the original
url. The title falls back to the placeholder when the parsed title is
`None` or empty (`article.title or 'Untitled Article'`). -/
def extract_article (url : String) (env : ExtractOutcome) : ExtractResult :=
  match env with
  | ExtractOutcome.parsed t as pd tx h ti =>
      ExtractResult.ok
        { title :=
            match t with
            | some s => if s = "" then "Untitled Article" else s
            | none => "Untitled Article"
          authors := as
          publish_date := pd
          text := tx
          html := h
          top_image := ti
          url := url }
  | ExtractOutcome.exn m => ExtractResult.fail m url

/-- C4: `extract_article` is total (it is a Lean function, so it never
raises), and for every outcome it returns either a success record, or a
failure record carrying the original url and an error string equal to the
text of the underlying exception, hence non-empty whenever that text is. -/
theorem extract_article_total (url : String) (env : ExtractOutcome)
    (h : ∀ m, env = ExtractOutcome.exn m → m ≠ "") :
    (extract_article url env).success = true
    ∨ ((extract_article url env).success = false
        ∧ (extract_article url env).urlOf = url
        ∧ ∃ e, (extract_article url env).errorOf = some e ∧ e ≠ "") := by
  cases env with
  | parsed t as pd tx hh ti => exact Or.inl rfl
  | exn m =>
      refine Or.inr ⟨rfl, rfl, m, rfl, ?_⟩
      exact h m rfl

/-- C4 witness: a concrete failing fetch. -/
theorem extract_article_total_witness :
    (extract_article "http://bad" (ExtractOutcome.exn "connection refused")).success = true
    ∨ ((extract_article "http://bad" (ExtractOutcome.exn "connection refused")).success = false
        ∧ (extract_article "http://bad" (ExtractOutcome.exn "connection refused")).urlOf = "http://bad"
        ∧ ∃ e, (extract_article "http://bad" (ExtractOutcome.exn "connection refused")).errorOf = some e
            ∧ e ≠ "") :=
  extract_article_total "http://bad" (ExtractOutcome.exn "connection refused")
    (by intro m hm; cases hm; decide)

/-- The characters Python `str.strip()` and `str.rstrip()` remove:
space, tab, newline, carriage return, vertical tab, form feed. -/
def pyIsSpace (c : Char) : Bool :=
  c = ' ' || c = '\t' || c = '\n' || c = '\r' || c = Char.ofNat 11 || c = Char.ofNat 12

/-- Python `str.rstrip()` on a character list. -/
def rstripChars (l : List Char) : List Char :=
  (l.reverse.dropWhile pyIsSpace).reverse

/-- Python `str.strip()` on a character list. -/
def pyStripList (l : List Char) : List Char :=
  ((l.dropWhile pyIsSpace).reverse.dropWhile pyIsSpace).reverse

/-- The character filter of app.py line 129 followed by `.rstrip()`:
keep a character when it is alphanumeric (per the given `isAlnum`
predicate, standing for Python `str.isalnum`) or one of space, hyphen,
underscore. -/
def safeTitleChars (isAlnum : Char → Bool) (title : String) : List Char :=
  rstripChars (title.toList.filter (fun c => isAlnum c || c = ' ' || c = '-' || c = '_'))

/-- The filename stem `safe_title[:50]` of app.py line 130 (Python slices
strings by code point, matching `List.take` on the character list). -/
def filenameStem (isAlnum : Char → Bool) (title : String) : String :=
  String.mk ((safeTitleChars isAlnum title).take 50)

/-- The in-memory content of the e-book built by `create_epub`: metadata,
the rendered body paragraph sequence, and the output path. -/
structure EpubDoc where
  identifier : String
  title : String
  language : String
  authors : List String
  bodyParagraphs : List String
  htmlBody : String
  path : String
deriving DecidableEq

/-- Embedding of `create_epub(article_data)` (app.py lines 69-133). `uid` is
the timestamp-based identifier suffix and `tempDir` the fresh directory
from `tempfile.mkdtemp()`; both vary per invocation but do not influence
the rendered content. The body paragraphs are the segments of
`text.split('\n\n')` kept when `para.strip()` is truthy (app.py line
108), each rendered as one `p` element. -/
def create_epub (isAlnum : Char → Bool) (a : ArticleOk) (uid tempDir : String) : EpubDoc :=
  let paras := (a.text.splitOn "\n\n").filter (fun p => !(pyStripList p.toList).isEmpty)
  { identifier := "kindle-sender-" ++ uid
    title := a.title
    language := "en"
    authors := if a.authors.isEmpty then ["Unknown"] else a.authors
    bodyParagraphs := paras
    htmlBody := String.join (paras.map (fun p => "<p>" ++ p ++ "</p>"))
    path := tempDir ++ "/" ++ filenameStem isAlnum a.title ++ ".epub" }

/-- Spec-side definition, from the words of the specification: the segments
of the body text split on blank-line boundaries, with whitespace-only
segments removed. -/
def specBlankLineParagraphs (t : String) : List String :=
  (t.splitOn "\n\n").filter (fun p => !(p.toList.all pyIsSpace))

/-- A stripped string is empty exactly when the original is all whitespace. -/
theorem pyStripList_isEmpty (l : List Char) :
    (pyStripList l).isEmpty = l.all pyIsSpace := by
  rw [Bool.eq_iff_iff]
  simp only [pyStripList, List.isEmpty_iff, List.reverse_eq_nil_iff,
    List.dropWhile_eq_nil_iff, List.all_eq_true, List.mem_reverse]
  constructor
  · intro h x hx
    have hx2 : x ∈ l.takeWhile pyIsSpace ++ l.dropWhile pyIsSpace := by
      rw [List.takeWhile_append_dropWhile]
      exact hx
    rcases List.mem_append.mp hx2 with h1 | h2
    · exact List.mem_takeWhile_imp h1
    · exact h x h2
  · intro h x hx
    exact h x ((List.dropWhile_sublist _).subset hx)

/-- Dropping a right strip never adds characters. -/
theorem mem_of_mem_rstripChars {l : List Char} {c : Char}
    (h : c ∈ rstripChars l) : c ∈ l := by
  unfold rstripChars at h
  rw [List.mem_reverse] at h
  have h2 := (List.dropWhile_sublist pyIsSpace).subset h
  exact List.mem_reverse.mp h2

/-- C6: the paragraphs `create_epub` renders into the document body are
exactly the segments of the body text split on blank-line boundaries with
whitespace-only segments removed, and repackaging the same record (with a
fresh identifier and temp directory) yields the same paragraph sequence. -/
theorem create_epub_paragraphs (isAlnum : Char → Bool) (a : ArticleOk)
    (uid1 d1 uid2 d2 : String) :
    (create_epub isAlnum a uid1 d1).bodyParagraphs = specBlankLineParagraphs a.text
    ∧ (create_epub isAlnum a uid1 d1).bodyParagraphs
        = (create_epub isAlnum a uid2 d2).bodyParagraphs := by
  constructor
  · show ((a.text.splitOn "\n\n").filter (fun p => !(pyStripList p.toList).isEmpty))
        = specBlankLineParagraphs a.text
    unfold specBlankLineParagraphs
    apply List.filter_congr
    intro p _
    exact congrArg (fun b => !b) (pyStripList_isEmpty p.toList)
  · rfl

/-- C7: every character of the filename stem derived from a title is
alphanumeric (per the isalnum predicate), a space, a hyphen or an
underscore; the stem is at most 50 characters long; and `create_epub`
writes exactly to that stem plus the `.epub` extension inside the fresh
temp directory. -/
theorem filenameStem_sanitized (isAlnum : Char → Bool) (title : String)
    (a : ArticleOk) (uid d : String) :
    ((filenameStem isAlnum title).toList.all
        (fun c => isAlnum c || c = ' ' || c = '-' || c = '_')) = true
    ∧ (filenameStem isAlnum title).toList.length ≤ 50
    ∧ (create_epub isAlnum a uid d).path
        = d ++ "/" ++ filenameStem isAlnum a.title ++ ".epub" := by
  refine ⟨?_, ?_, rfl⟩
  · rw [List.all_eq_true]
    intro c hc
    have h1 : c ∈ safeTitleChars isAlnum title := List.take_subset 50 _ hc
    have h2 : c ∈ title.toList.filter
        (fun c => isAlnum c || c = ' ' || c = '-' || c = '_') :=
      mem_of_mem_rstripChars h1
    exact (List.mem_filter.mp h2).2
  · show ((safeTitleChars isAlnum title).take 50).length ≤ 50
    rw [List.length_take]
    exact min_le_left _ _

/-- C10: a title made only of characters outside the retained set (here
`"???"`) sanitizes to the empty stem, so `create_epub` writes to a file
whose basename is exactly `.epub`. -/
theorem create_epub_empty_stem :
    filenameStem Char.isAlphanum "???" = ""
    ∧ (create_epub Char.isAlphanum
        { title := "???", authors := [], publish_date := none, text := "t",
          html := "", top_image := "", url := "u" } "123" "/tmp/work").path
      = "/tmp/work/.epub" := by
  constructor <;> rfl

/-- One entry of the module-level `article_queue` list (app.py lines
238-242): url, extracted title, enqueue timestamp. -/
structure PendingItem where
  url : String
  title : String
  added_at : String
deriving DecidableEq

/-- Response of the enqueue handler: the 400 for a missing url, the
extraction-failure dictionary relayed with status 400, or the success
body with message and updated queue length. -/
inductive QueueResp where
  | badRequest (error : String)
  | extractFailed (error : String) (url : String)
  | ok (message : String) (queue_length : Nat)
deriving DecidableEq

/-- Embedding of the `POST /queue` handler `queue_article` (app.py lines
224-248). `urlParam` is `data.get('url')` (absent or falsy empty string
rejected), `env` the newspaper outcome for the metadata extraction, `now`
the `datetime.now().isoformat()` timestamp. Returns the response and the
new queue state. -/
def queue_article (urlParam : Option String) (env : ExtractOutcome)
    (now : String) (q : List PendingItem) : QueueResp × List PendingItem :=
  match urlParam with
  | none => (QueueResp.badRequest "URL is required", q)
  | some url =>
      if url = "" then (QueueResp.badRequest "URL is required", q)
      else
        match extract_article url env with
        | ExtractResult.fail err u => (QueueResp.extractFailed err u, q)
        | ExtractResult.ok a =>
            (QueueResp.ok ("Added \"" ++ a.title ++ "\" to queue") (q.length + 1),
             q ++ [{ url := url, title := a.title, added_at := now }])

/-- Response of the `DELETE /queue/clear` handler. -/
structure ClearResponse where
  success : Bool
  message : String
deriving DecidableEq

/-- Embedding of the `clear_queue` handler (app.py lines 294-298). -/
def clear_queue (_q : List PendingItem) : ClearResponse × List PendingItem :=
  ({ success := true, message := "Queue cleared" }, [])

/-- C8: a successful enqueue (url present and non-empty, extraction
succeeded) appends exactly one item: the new queue has length one more,
its prefix is the old queue unchanged, and the new item sits last; the
clear operation leaves the queue with length 0. -/
theorem queue_article_appends (u : String) (env : ExtractOutcome)
    (now : String) (q : List PendingItem)
    (hu : u ≠ "") (hok : env.isOk = true) :
    ((queue_article (some u) env now q).2).length = q.length + 1
    ∧ ((queue_article (some u) env now q).2).take q.length = q
    ∧ (∃ item, (queue_article (some u) env now q).2 = q ++ [item])
    ∧ ((clear_queue q).2).length = 0 := by
  cases env with
  | exn m => simp [ExtractOutcome.isOk] at hok
  | parsed t as pd tx h ti =>
      refine ⟨?_, ?_, ?_, rfl⟩ <;>
        simp [queue_article, extract_article, hu, clear_queue, List.take_left]

/-- A concrete queue entry used by witnesses. -/
def itemZ : PendingItem := { url := "http://z", title := "Z", added_at := "t0" }

/-- C8 witness: enqueue onto a one-element queue. -/
theorem queue_article_appends_witness :
    ((queue_article (some "http://a")
        (ExtractOutcome.parsed (some "A") [] none "" "" "") "t1" [itemZ]).2).length
      = [itemZ].length + 1
    ∧ ((queue_article (some "http://a")
        (ExtractOutcome.parsed (some "A") [] none "" "" "") "t1" [itemZ]).2).take
          [itemZ].length
      = [itemZ]
    ∧ (∃ item, (queue_article (some "http://a")
        (ExtractOutcome.parsed (some "A") [] none "" "" "") "t1" [itemZ]).2
      = [itemZ] ++ [item])
    ∧ ((clear_queue [itemZ]).2).length = 0 :=
  queue_article_appends "http://a" (ExtractOutcome.parsed (some "A") [] none "" "" "")
    "t1" [itemZ] (by decide) rfl

/-- External outcomes governing the processing of one queued item during a
flush: the newspaper outcome of its extraction, whether `create_epub`
raises (and with what text), and the relay outcome of its dispatch. -/
structure ItemEnv where
  extract : ExtractOutcome
  pkgExn : Option String
  net : SendNet
deriving DecidableEq

/-- One entry of the `results` list built by `send_queue` (app.py lines
273-285): either the title-keyed dispatch outcome or the url-keyed
extraction failure. -/
structure FlushResult where
  title : Option String
  url : Option String
  success : Bool
  error : Option String
deriving DecidableEq

/-- The JSON body of a completed `POST /queue/send` response (app.py lines
287-291, plus the 400 body for an empty queue). -/
structure FlushResponse where
  success : Bool
  error : Option String
  results : List FlushResult
  remaining_in_queue : Nat
deriving DecidableEq

/-- The loop of `send_queue` (app.py lines 268-285), iterating over a copy
of the queue while mutating the live queue. For each item: extraction
failure is recorded and processing continues; a raise inside `create_epub`
is not caught anywhere in the handler, so it aborts the loop and escapes
(`Except.error`), leaving the queue as mutated so far; otherwise the item
is dispatched with `send_to_kindle`, the outcome recorded, and the item
removed from the live queue (Python `list.remove`: first equal element)
only when dispatch succeeded. -/
def flushLoop (cfg : Config) :
    List (PendingItem × ItemEnv) → List PendingItem → List FlushResult →
    (Except String (List FlushResult)) × List PendingItem
  | [], queue, acc => (Except.ok acc, queue)
  | (item, env) :: rest, queue, acc =>
      match extract_article item.url env.extract with
      | ExtractResult.fail err _ =>
          flushLoop cfg rest queue
            (acc ++ [{ title := none, url := some item.url, success := false,
                       error := some err }])
      | ExtractResult.ok a =>
          match env.pkgExn with
          | some m => (Except.error m, queue)
          | none =>
              flushLoop cfg rest
                (if ((send_to_kindle cfg env.net a.title true).1).success
                 then queue.erase item else queue)
                (acc ++ [{ title := some a.title, url := none,
                           success := ((send_to_kindle cfg env.net a.title true).1).success,
                           error := ((send_to_kindle cfg env.net a.title true).1).error }])

/-- Embedding of the `POST /queue/send` handler `send_queue` (app.py lines
261-291). `envs` supplies the external outcome for each successive item of
the snapshot copy. Returns the response (or the escaped exception) together
with the final queue state. -/
def send_queue (cfg : Config) (q : List PendingItem) (envs : List ItemEnv) :
    (Except String FlushResponse) × List PendingItem :=
  if q = [] then
    (Except.ok { success := false, error := some "Queue is empty", results := [],
                 remaining_in_queue := 0 }, q)
  else
    match flushLoop cfg (q.zip envs) q [] with
    | (Except.error m, q2) => (Except.error m, q2)
    | (Except.ok results, q2) =>
        (Except.ok { success := true, error := none, results := results,
                     remaining_in_queue := q2.length }, q2)

/-- C9: whenever a non-empty flush completes with a response at all, that
response carries success=true, whatever the per-item outcomes were;
per-item failures appear only inside the results list. -/
theorem send_queue_top_level_success (cfg : Config) (q : List PendingItem)
    (envs : List ItemEnv) (r : FlushResponse)
    (hq : q ≠ []) (h : (send_queue cfg q envs).1 = Except.ok r) :
    r.success = true := by
  unfold send_queue at h
  rw [if_neg hq] at h
  rcases hfl : flushLoop cfg (q.zip envs) q [] with ⟨e, q2⟩
  rw [hfl] at h
  cases e with
  | error m => simp at h
  | ok results =>
      simp at h
      rw [← h]

/-- C9 witness: a one-item queue whose only item fails extraction still
yields a success=true response. -/
theorem send_queue_top_level_success_witness :
    ({ success := true, error := none,
       results := [{ title := none, url := some "http://z", success := false,
                     error := some "boom" }],
       remaining_in_queue := 1 } : FlushResponse).success = true :=
  send_queue_top_level_success ⟨some "u", some "p", some "k", none⟩ [itemZ]
    [{ extract := ExtractOutcome.exn "boom", pkgExn := none, net := SendNet.ok }]
    { success := true, error := none,
      results := [{ title := none, url := some "http://z", success := false,
                    error := some "boom" }],
      remaining_in_queue := 1 }
    (by decide) rfl

/-- Spec-side definition of the items a flush leaves pending: walking the
snapshot in order, an item that fails extraction or dispatch stays, a fully
delivered item (extract, package and dispatch all succeed) is dropped, and
at a packaging raise the aborted item and the whole unprocessed tail stay.
By construction this list keeps the original relative order. -/
def remainingModel (cfg : Config) : List (PendingItem × ItemEnv) → List PendingItem
  | [] => []
  | (item, env) :: rest =>
      match extract_article item.url env.extract with
      | ExtractResult.fail _ _ => item :: remainingModel cfg rest
      | ExtractResult.ok a =>
          match env.pkgExn with
          | some _ => item :: rest.map Prod.fst
          | none =>
              if ((send_to_kindle cfg env.net a.title true).1).success
              then remainingModel cfg rest
              else item :: remainingModel cfg rest

/-- Spec-side count of the fully delivered items of a flush run (items after
a packaging raise are never processed, hence not delivered). -/
def deliveredCount (cfg : Config) : List (PendingItem × ItemEnv) → Nat
  | [] => 0
  | (item, env) :: rest =>
      match extract_article item.url env.extract with
      | ExtractResult.fail _ _ => deliveredCount cfg rest
      | ExtractResult.ok a =>
          match env.pkgExn with
          | some _ => 0
          | none =>
              if ((send_to_kindle cfg env.net a.title true).1).success
              then deliveredCount cfg rest + 1
              else deliveredCount cfg rest

/-- Every processed item is either kept or delivered. -/
theorem remainingModel_length (cfg : Config) :
    ∀ pairs : List (PendingItem × ItemEnv),
      (remainingModel cfg pairs).length + deliveredCount cfg pairs = pairs.length := by
  intro pairs
  induction pairs with
  | nil => rfl
  | cons pe rest ih =>
      rcases pe with ⟨item, env⟩
      cases hex : extract_article item.url env.extract with
      | fail err u =>
          simp only [remainingModel, deliveredCount, hex, List.length_cons]
          omega
      | ok a =>
          cases hpk : env.pkgExn with
          | some m =>
              simp only [remainingModel, deliveredCount, hex, hpk, List.length_cons,
                List.length_map]
          | none =>
              cases hs : ((send_to_kindle cfg env.net a.title true).1).success with
              | true =>
                  simp only [remainingModel, deliveredCount, hex, hpk, hs, ite_true,
                    List.length_cons]
                  omega
              | false =>
                  simp only [remainingModel, deliveredCount, hex, hpk, hs, ite_false,
                    Bool.false_eq_true, List.length_cons]
                  omega

/-- The kept items keep their original relative order: the model is a
sublist of the processed snapshot. -/
theorem remainingModel_sublist (cfg : Config) :
    ∀ pairs : List (PendingItem × ItemEnv),
      (remainingModel cfg pairs).Sublist (pairs.map Prod.fst) := by
  intro pairs
  induction pairs with
  | nil => exact List.Sublist.refl _
  | cons pe rest ih =>
      rcases pe with ⟨item, env⟩
      cases hex : extract_article item.url env.extract with
      | fail err u =>
          simp only [remainingModel, hex, List.map_cons]
          exact List.Sublist.cons₂ _ ih
      | ok a =>
          cases hpk : env.pkgExn with
          | some m =>
              simp only [remainingModel, hex, hpk, List.map_cons]
              exact List.Sublist.refl _
          | none =>
              cases hs : ((send_to_kindle cfg env.net a.title true).1).success with
              | true =>
                  simp only [remainingModel, hex, hpk, hs, List.map_cons, ite_true]
                  exact List.Sublist.cons _ ih
              | false =>
                  simp only [remainingModel, hex, hpk, hs, List.map_cons, ite_false,
                    Bool.false_eq_true]
                  exact List.Sublist.cons₂ _ ih

/-- Invariant of the flush loop: when the live queue is `kept` (already
processed, not removed) followed by the snapshot of the unprocessed items,
and the whole queue has no duplicates, the loop ends with `kept` followed
by the model of the remaining items. -/
theorem flushLoop_queue_eq (cfg : Config) :
    ∀ (pairs : List (PendingItem × ItemEnv)) (kept : List PendingItem)
      (acc : List FlushResult),
      (kept ++ pairs.map Prod.fst).Nodup →
      (flushLoop cfg pairs (kept ++ pairs.map Prod.fst) acc).2
        = kept ++ remainingModel cfg pairs := by
  intro pairs
  induction pairs with
  | nil => intro kept acc _; simp [flushLoop, remainingModel]
  | cons pe rest ih =>
      rcases pe with ⟨item, env⟩
      intro kept acc hN
      rw [List.map_cons] at hN
      cases hex : extract_article item.url env.extract with
      | fail err u =>
          simp only [flushLoop, remainingModel, hex, List.map_cons]
          have hre : kept ++ item :: rest.map Prod.fst
              = (kept ++ [item]) ++ rest.map Prod.fst := by simp
          rw [hre]
          have hN2 : ((kept ++ [item]) ++ rest.map Prod.fst).Nodup := by
            rw [← hre]; exact hN
          rw [ih (kept ++ [item]) _ hN2]
          simp
      | ok a =>
          cases hpk : env.pkgExn with
          | some m =>
              simp only [flushLoop, remainingModel, hex, hpk, List.map_cons]
          | none =>
              cases hs : ((send_to_kindle cfg env.net a.title true).1).success with
              | true =>
                  have hnotmem : item ∉ kept := by
                    intro hm
                    exact (List.nodup_append.mp hN).2.2 hm (List.mem_cons_self _ _)
                  simp only [flushLoop, remainingModel, hex, hpk, hs, List.map_cons,
                    ite_true]
                  rw [List.erase_append_right _ hnotmem, List.erase_cons_head]
                  have hN2 : (kept ++ rest.map Prod.fst).Nodup := by
                    refine List.Nodup.sublist ?_ hN
                    exact List.Sublist.append_left (List.sublist_cons_self _ _) kept
                  exact ih kept _ hN2
              | false =>
                  simp only [flushLoop, remainingModel, hex, hpk, hs, List.map_cons,
                    ite_false, Bool.false_eq_true]
                  have hre : kept ++ item :: rest.map Prod.fst
                      = (kept ++ [item]) ++ rest.map Prod.fst := by simp
                  rw [hre]
                  have hN2 : ((kept ++ [item]) ++ rest.map Prod.fst).Nodup := by
                    rw [← hre]; exact hN
                  rw [ih (kept ++ [item]) _ hN2]
                  simp

/-- C3 (amended): for a pending list without duplicate entries, flushing
leaves exactly the items that were not fully delivered, in their original
relative order (a sublist of the original queue), and the remaining count
is N minus the number of fully delivered items. -/
theorem send_queue_remaining (cfg : Config) (q : List PendingItem)
    (envs : List ItemEnv) (hN : q.Nodup) (hl : q.length ≤ envs.length) :
    (send_queue cfg q envs).2 = remainingModel cfg (q.zip envs)
    ∧ (send_queue cfg q envs).2.length
        = q.length - deliveredCount cfg (q.zip envs)
    ∧ ((send_queue cfg q envs).2).Sublist q := by
  have hmap : (q.zip envs).map Prod.fst = q := List.map_fst_zip q envs hl
  have hmain : (send_queue cfg q envs).2 = remainingModel cfg (q.zip envs) := by
    unfold send_queue
    by_cases hq : q = []
    · subst hq
      simp [remainingModel]
    · rw [if_neg hq]
      have h2 := flushLoop_queue_eq cfg (q.zip envs) [] []
        (by rw [List.nil_append, hmap]; exact hN)
      rw [List.nil_append, hmap, List.nil_append] at h2
      rcases hfl : flushLoop cfg (q.zip envs) q [] with ⟨e, q2⟩
      rw [hfl] at h2
      cases e with
      | error m => simpa using h2
      | ok results => simpa using h2
  refine ⟨hmain, ?_, ?_⟩
  · rw [hmain]
    have hsum := remainingModel_length cfg (q.zip envs)
    have hzl : (q.zip envs).length = q.length := by
      rw [List.length_zip]
      omega
    omega
  · have hsub := remainingModel_sublist cfg (q.zip envs)
    rw [hmap] at hsub
    rw [hmain]
    exact hsub

/-- A second concrete queue entry, distinct from `itemZ`. -/
def itemY : PendingItem := { url := "http://y", title := "Y", added_at := "t1" }

/-- A fully configured environment. -/
def cfgFull : Config := ⟨some "user", some "pass", some "kindle", none⟩

/-- C3 witness: a two-item duplicate-free queue where the first item fails
extraction and the second is fully delivered. -/
theorem send_queue_remaining_witness :
    (send_queue cfgFull [itemZ, itemY]
        [{ extract := ExtractOutcome.exn "down", pkgExn := none, net := SendNet.ok },
         { extract := ExtractOutcome.parsed (some "Y") [] none "" "" "",
           pkgExn := none, net := SendNet.ok }]).2
      = remainingModel cfgFull ([itemZ, itemY].zip
          [{ extract := ExtractOutcome.exn "down", pkgExn := none, net := SendNet.ok },
           { extract := ExtractOutcome.parsed (some "Y") [] none "" "" "",
             pkgExn := none, net := SendNet.ok }])
    ∧ (send_queue cfgFull [itemZ, itemY]
        [{ extract := ExtractOutcome.exn "down", pkgExn := none, net := SendNet.ok },
         { extract := ExtractOutcome.parsed (some "Y") [] none "" "" "",
           pkgExn := none, net := SendNet.ok }]).2.length
      = [itemZ, itemY].length - deliveredCount cfgFull ([itemZ, itemY].zip
          [{ extract := ExtractOutcome.exn "down", pkgExn := none, net := SendNet.ok },
           { extract := ExtractOutcome.parsed (some "Y") [] none "" "" "",
             pkgExn := none, net := SendNet.ok }])
    ∧ ((send_queue cfgFull [itemZ, itemY]
        [{ extract := ExtractOutcome.exn "down", pkgExn := none, net := SendNet.ok },
         { extract := ExtractOutcome.parsed (some "Y") [] none "" "" "",
           pkgExn := none, net := SendNet.ok }]).2).Sublist [itemZ, itemY] :=
  send_queue_remaining cfgFull [itemZ, itemY]
    [{ extract := ExtractOutcome.exn "down", pkgExn := none, net := SendNet.ok },
     { extract := ExtractOutcome.parsed (some "Y") [] none "" "" "",
       pkgExn := none, net := SendNet.ok }]
    (by decide) (by decide)

/-- C3 (counterexample): with duplicate entries the claim fails as stated.
The queue holds the same item at positions 1 and 3; the first two
processing steps fail extraction and the third is fully delivered, yet
`list.remove` deletes the first equal element, so the survivors are not
the unsuccessful positions in their original relative order. -/
theorem send_queue_duplicate_counterexample :
    (send_queue cfgFull [itemZ, itemY, itemZ]
        [{ extract := ExtractOutcome.exn "e1", pkgExn := none, net := SendNet.ok },
         { extract := ExtractOutcome.exn "e2", pkgExn := none, net := SendNet.ok },
         { extract := ExtractOutcome.parsed (some "Z") [] none "" "" "",
           pkgExn := none, net := SendNet.ok }]).2
      = [itemY, itemZ]
    ∧ remainingModel cfgFull ([itemZ, itemY, itemZ].zip
        [{ extract := ExtractOutcome.exn "e1", pkgExn := none, net := SendNet.ok },
         { extract := ExtractOutcome.exn "e2", pkgExn := none, net := SendNet.ok },
         { extract := ExtractOutcome.parsed (some "Z") [] none "" "" "",
           pkgExn := none, net := SendNet.ok }])
      = [itemZ, itemY]
    ∧ ([itemY, itemZ] : List PendingItem) ≠ [itemZ, itemY] := by
  refine ⟨rfl, rfl, by decide⟩

/-- C2 (code evaluated at the failing input): a raise inside `create_epub`
during a flush is not caught by the handler. With two queued items where
packaging the first raises, the loop aborts: the exception escapes, no
response is produced, and the second item is never processed (both items
are still queued). The immediate-send handler catches exactly this
exception (app.py lines 206-209), so the flush handler omitting the guard
contradicts the codebase's own convention and the specification. -/
theorem send_queue_packaging_exception_escapes :
    send_queue cfgFull [itemZ, itemY]
        [{ extract := ExtractOutcome.parsed (some "Z") [] none "" "" "",
           pkgExn := some "disk full", net := SendNet.ok },
         { extract := ExtractOutcome.parsed (some "Y") [] none "" "" "",
           pkgExn := none, net := SendNet.ok }]
      = (Except.error "disk full", [itemZ, itemY]) := by
  rfl

end KindleSender
